import Mathlib

/-!
Shallow embedding of `src/app.py` (an undervalued-growth stock screener).

The app stores per-field values that, in Python, are either `None`
(missing provider key), `float('nan')` (explicit absent marker written by
`fetch_stock_metrics`), or a number.  We model such a value as `PyVal`
with Python's truthiness (`None` falsy, `nan` truthy, a number truthy iff
nonzero) and Python float comparisons (`nan` compares false to
everything).  Numbers are modelled as rationals.
-/

inductive PyVal where
  | none : PyVal
  | nan : PyVal
  | num (q : ℚ) : PyVal
  deriving DecidableEq, Repr

namespace PyVal

/-- Python truthiness: `bool(None) = False`, `bool(nan) = True`,
`bool(q) = (q ≠ 0)`. -/
def pytruthy : PyVal → Bool
  | .none => false
  | .nan => true
  | .num q => decide (q ≠ 0)

/-- Python `v < t` for a numeric threshold `t`, as used inside the
screening clauses.  `nan < t` is `False`.  A comparison against `None`
would raise in Python; every comparison in the app is guarded by a
truthiness check, so the `.none` branch is unreachable (we return
`false`). -/
def pyltB : PyVal → ℚ → Bool
  | .none, _ => false
  | .nan, _ => false
  | .num q, t => decide (q < t)

/-- Python `v > t` for a numeric threshold `t`; `nan > t` is `False`;
the `.none` branch is unreachable behind the truthiness guards. -/
def pygtB : PyVal → ℚ → Bool
  | .none, _ => false
  | .nan, _ => false
  | .num q, t => decide (q > t)

/-- A value the app regards as carrying no data: a missing key (`None`)
or the explicit `nan` marker. -/
def pyAbsent (v : PyVal) : Prop := v = PyVal.none ∨ v = PyVal.nan

instance (v : PyVal) : Decidable (pyAbsent v) := by
  unfold pyAbsent; infer_instance

end PyVal

/-- Errors a Python arithmetic expression over our value universe can
raise: dividing by (exact) zero, or applying arithmetic to `None`. -/
inductive PyErr where
  | zeroDiv : PyErr
  | typeErr : PyErr
  deriving DecidableEq, Repr

/-- Python `a - b` on floats/`None`: `None` raises `TypeError`, `nan`
propagates, numbers subtract. -/
def pySub : PyVal → PyVal → Except PyErr PyVal
  | .none, _ => .error .typeErr
  | _, .none => .error .typeErr
  | .nan, _ => .ok .nan
  | _, .nan => .ok .nan
  | .num a, .num b => .ok (.num (a - b))

/-- Python `a * b`: `None` raises `TypeError`, `nan` propagates,
numbers multiply. -/
def pyMul : PyVal → PyVal → Except PyErr PyVal
  | .none, _ => .error .typeErr
  | _, .none => .error .typeErr
  | .nan, _ => .ok .nan
  | _, .nan => .ok .nan
  | .num a, .num b => .ok (.num (a * b))

/-- Python `a / b`: `None` raises `TypeError`; a divisor that is exactly
numeric zero raises `ZeroDivisionError` (even for a `nan` numerator);
otherwise `nan` propagates and numbers divide. -/
def pyDiv : PyVal → PyVal → Except PyErr PyVal
  | .none, _ => .error .typeErr
  | _, .none => .error .typeErr
  | .nan, .nan => .ok .nan
  | .num _, .nan => .ok .nan
  | .nan, .num d => if d = 0 then .error .zeroDiv else .ok .nan
  | .num a, .num b => if b = 0 then .error .zeroDiv else .ok (.num (a / b))

/-- The key-value bag returned by the per-symbol metrics provider
(`yf.Ticker(t).info`), restricted to the keys `fetch_stock_metrics`
reads.  Each field is the result of `info.get(key)`: `PyVal.none` when
the key is missing. -/
structure ProviderInfo where
  trailingPE : PyVal
  forwardPE : PyVal
  pegRatio : PyVal
  returnOnEquity : PyVal
  debtToEquity : PyVal
  earningsGrowth : PyVal
  revenueGrowth : PyVal
  recommendationMean : PyVal
  targetMeanPrice : PyVal
  currentPrice : PyVal
  deriving DecidableEq, Repr

/-- The per-ticker record built by `fetch_stock_metrics` (numeric fields
only; the identity strings play no role in any predicate). -/
structure MetricsSnapshot where
  trailingPE : PyVal
  forwardPE : PyVal
  pegRatio : PyVal
  roePct : PyVal
  debtEquity : PyVal
  earningsGrowthPct : PyVal
  revenueGrowthPct : PyVal
  recScore : PyVal
  upsidePct : PyVal
  deriving DecidableEq, Repr

open PyVal

/-- `info.get(k) * 100 if info.get(k) else np.nan` — the ratio-to-percent
conversion applied to `returnOnEquity`, `earningsGrowth` and
`revenueGrowth` (src/app.py lines 65, 67, 68). -/
def pctField (v : PyVal) : Except PyErr PyVal :=
  if pytruthy v then pyMul v (.num 100) else .ok .nan

/-- `(target - current) / current * 100 if target and current else np.nan`
— the derived upside-percent expression (src/app.py lines 70-75). -/
def upsideExpr (target current : PyVal) : Except PyErr PyVal :=
  if pytruthy target && pytruthy current then do
    let d ← pySub target current
    let r ← pyDiv d current
    pyMul r (.num 100)
  else
    .ok .nan

/-- The body of the `try:` block of `fetch_stock_metrics`
(src/app.py lines 53-76), from the provider bag to the metrics record. -/
def fetchBody (info : ProviderInfo) : Except PyErr MetricsSnapshot := do
  let roe ← pctField info.returnOnEquity
  let eg ← pctField info.earningsGrowth
  let rg ← pctField info.revenueGrowth
  let up ← upsideExpr info.targetMeanPrice info.currentPrice
  pure
    { trailingPE := info.trailingPE
      forwardPE := info.forwardPE
      pegRatio := info.pegRatio
      roePct := roe
      debtEquity := info.debtToEquity
      earningsGrowthPct := eg
      revenueGrowthPct := rg
      recScore := info.recommendationMean
      upsidePct := up }

/-- `fetch_stock_metrics` (src/app.py lines 51-78): the whole `try:`
block — provider lookup, which may itself fail, then `fetchBody` — with
`except: return None`.  The input is the outcome of the provider call. -/
def fetch_stock_metrics (r : Except PyErr ProviderInfo) : Option MetricsSnapshot :=
  match r with
  | .error _ => Option.none
  | .ok info =>
      match fetchBody info with
      | .error _ => Option.none
      | .ok m => some m

/-- The five sidebar thresholds (src/app.py lines 23-27). -/
structure Config where
  max_pe : ℚ
  max_forward_pe : ℚ
  max_peg : ℚ
  min_roe : ℚ
  min_upside : ℚ
  deriving DecidableEq, Repr

/-- `undervalued` (src/app.py lines 95-99): truthiness of the Python
`or`-chain of guarded comparisons. -/
def undervalued (cfg : Config) (m : MetricsSnapshot) : Bool :=
  (pytruthy m.trailingPE && pyltB m.trailingPE cfg.max_pe)
  || (pytruthy m.forwardPE && pyltB m.forwardPE cfg.max_forward_pe)
  || (pytruthy m.pegRatio && pyltB m.pegRatio cfg.max_peg)

/-- `growth` (src/app.py lines 101-105). -/
def growth (cfg : Config) (m : MetricsSnapshot) : Bool :=
  (pytruthy m.earningsGrowthPct && pygtB m.earningsGrowthPct 8)
  || (pytruthy m.revenueGrowthPct && pygtB m.revenueGrowthPct 5)
  || (pytruthy m.upsidePct && pygtB m.upsidePct cfg.min_upside)

/-- `quality` (src/app.py lines 107-111); `2.8 = 14/5`. -/
def quality (cfg : Config) (m : MetricsSnapshot) : Bool :=
  (pytruthy m.roePct && pygtB m.roePct cfg.min_roe)
  && (pytruthy m.debtEquity && pyltB m.debtEquity 150)
  && (pytruthy m.recScore && pyltB m.recScore (14/5))

/-- `if undervalued and growth and quality` (src/app.py line 113). -/
def passes (cfg : Config) (m : MetricsSnapshot) : Bool :=
  undervalued cfg m && growth cfg m && quality cfg m

/-- The scan loop body (src/app.py lines 90-116): for each fetch result,
skip `None`, keep records passing all three predicates, in order. -/
def collectSurvivors (cfg : Config) (fetches : List (Option MetricsSnapshot)) :
    List MetricsSnapshot :=
  fetches.filterMap fun d =>
    match d with
    | some m => if passes cfg m then some m else Option.none
    | Option.none => Option.none

/-- The full scan from raw provider outcomes: `fetch_stock_metrics` per
ticker, then the screening loop. -/
def scanRun (cfg : Config) (rs : List (Except PyErr ProviderInfo)) :
    List MetricsSnapshot :=
  collectSurvivors cfg (rs.map fetch_stock_metrics)

/-- `fillna`: the pandas substitution used in the Value-Score columns —
`None`/`nan` become the given default, numbers stay. -/
def fillna (v : PyVal) (d : ℚ) : ℚ :=
  match v with
  | .num q => q
  | _ => d

/-- The `Value Score` column (src/app.py lines 121-125):
`peg.fillna(999)*0.4 + pe.fillna(999)*0.3 - upside.fillna(0)*0.3`. -/
def valueScore (m : MetricsSnapshot) : ℚ :=
  fillna m.pegRatio 999 * (4/10) + fillna m.trailingPE 999 * (3/10)
    - fillna m.upsidePct 0 * (3/10)

/-!
The ranking step.  `df.sort_values("Value Score")` (src/app.py line 127)
uses the pandas default `kind='quicksort'`; with a NaN-free key column
(`Value Score` is NaN-free because every component is `fillna`-ed),
pandas `nargsort` reduces to `numpy.argsort(kind='quicksort')`, i.e.
numpy's generic introsort `npy_aquicksort`: median-of-3 quicksort on an
index array with `SMALL_QUICKSORT = 15` insertion-sort cutoff and a
heapsort fallback when the depth budget `2*msb(n)` is exhausted.  We
embed that algorithm below (scalar reference path; the heapsort fallback
is left unmodelled and signalled by `Option.none` — it is provably not
reached on the inputs considered here).  Loops carry explicit fuel;
every fuel bound used is far above the loop's real trip count.
-/

/-- In-bounds array write; out of bounds leaves the array unchanged
(every access made by the sort is in bounds). -/
def setAt (t : Array Nat) (i x : Nat) : Array Nat :=
  if h : i < t.size then t.set ⟨i, h⟩ x else t

/-- `v[t[i]]`: the sort key of the index stored at position `i`. -/
def keyOf (v : Array ℚ) (t : Array Nat) (i : Nat) : ℚ :=
  v.getD (t.getD i 0) 0

/-- `INTP_SWAP(t[i], t[j])`. -/
def aswap (t : Array Nat) (i j : Nat) : Array Nat :=
  let a := t.getD i 0
  let b := t.getD j 0
  setAt (setAt t i b) j a

/-- `do ++pi; while (v[t[pi]] < vp)`. -/
def scanUp (v : Array ℚ) (t : Array Nat) (vp : ℚ) : Nat → Nat → Nat
  | 0, pi => pi + 1
  | fuel+1, pi =>
      if keyOf v t (pi + 1) < vp then scanUp v t vp fuel (pi + 1) else pi + 1

/-- `do --pj; while (vp < v[t[pj]])`. -/
def scanDown (v : Array ℚ) (t : Array Nat) (vp : ℚ) : Nat → Nat → Nat
  | 0, pj => pj - 1
  | fuel+1, pj =>
      if vp < keyOf v t (pj - 1) then scanDown v t vp fuel (pj - 1) else pj - 1

/-- The partition exchange loop: scan up from `pi`, down from `pj`,
stop when the cursors cross, otherwise swap and continue.  Returns the
final array and the final `pi`. -/
def partLoop (v : Array ℚ) (vp : ℚ) : Nat → Array Nat → Nat → Nat → Array Nat × Nat
  | 0, t, pi, _ => (t, pi)
  | fuel+1, t, pi, pj =>
      let pi2 := scanUp v t vp (t.size + 2) pi
      let pj2 := scanDown v t vp (t.size + 2) pj
      if pi2 ≥ pj2 then (t, pi2)
      else partLoop v vp fuel (aswap t pi2 pj2) pi2 pj2

/-- Inner shift of the insertion sort:
`while (pj > pl && vp < v[t[pj-1]]) t[pj] = t[pj-1]; pj--`. -/
def insShift (v : Array ℚ) (vp : ℚ) (pl : Nat) : Nat → Array Nat → Nat → Array Nat × Nat
  | 0, t, pj => (t, pj)
  | fuel+1, t, pj =>
      if pj > pl ∧ vp < keyOf v t (pj - 1) then
        insShift v vp pl fuel (setAt t pj (t.getD (pj - 1) 0)) (pj - 1)
      else (t, pj)

/-- Outer insertion-sort loop over positions `pl+1 .. pr`. -/
def insOuter (v : Array ℚ) : Nat → Array Nat → Nat → Nat → Nat → Array Nat
  | 0, t, _, _, _ => t
  | fuel+1, t, pl, pr, pi =>
      if pi > pr then t
      else
        let vi := t.getD pi 0
        let vp := v.getD vi 0
        let s := insShift v vp pl (pi + 1) t pi
        insOuter v fuel (setAt s.1 s.2 vi) pl pr (pi + 1)

/-- Insertion sort of the index range `[pl, pr]` (inclusive). -/
def insertionRange (v : Array ℚ) (t : Array Nat) (pl pr : Nat) : Array Nat :=
  insOuter v (pr + 2) t pl pr (pl + 1)

/-- `npy_aquicksort`'s main loop on the range `[pl, pr]`: ranges of
length ≤ 16 (`pr - pl ≤ SMALL_QUICKSORT = 15`) get insertion sort;
otherwise median-of-3 partition and recursion, smaller side first (the
C code pushes the larger side on an explicit stack), threading the
shared depth budget.  `Option.none` marks the unmodelled heapsort
fallback (depth budget exhausted) or fuel exhaustion. -/
def aqsortLoop (v : Array ℚ) : Nat → Array Nat → Nat → Nat → Int → Option (Array Nat × Int)
  | 0, _, _, _, _ => Option.none
  | fuel+1, t, pl, pr, depth =>
      if pr ≤ pl + 15 then some (insertionRange v t pl pr, depth)
      else if depth < 0 then Option.none
      else
        let pm := pl + (pr - pl) / 2
        let t1 := if keyOf v t pm < keyOf v t pl then aswap t pm pl else t
        let t2 := if keyOf v t1 pr < keyOf v t1 pm then aswap t1 pr pm else t1
        let t3 := if keyOf v t2 pm < keyOf v t2 pl then aswap t2 pm pl else t2
        let vp := keyOf v t3 pm
        let t4 := aswap t3 pm (pr - 1)
        let p := partLoop v vp (t4.size + 2) t4 pl (pr - 1)
        let t5 := aswap p.1 p.2 (pr - 1)
        let pi := p.2
        if pi - pl < pr - pi then
          match aqsortLoop v fuel t5 pl (pi - 1) (depth - 1) with
          | some (t6, d) => aqsortLoop v fuel t6 (pi + 1) pr d
          | Option.none => Option.none
        else
          match aqsortLoop v fuel t5 (pi + 1) pr (depth - 1) with
          | some (t6, d) => aqsortLoop v fuel t6 pl (pi - 1) d
          | Option.none => Option.none

/-- `numpy.argsort(v, kind='quicksort')` via `npy_aquicksort`: sort the
index array `[0, …, n-1]` by key, depth budget `2 * msb(n)`. -/
def aquicksortIdx (v : Array ℚ) : Option (Array Nat) :=
  let n := v.size
  if n = 0 then some (Array.range 0)
  else
    match aqsortLoop v (2 * n + 64) (Array.range n) 0 (n - 1)
        ((2 * Nat.log2 n : Nat) : Int) with
    | some (t, _) => some t
    | Option.none => Option.none

/-- The row order produced by `df.sort_values("Value Score")`
(src/app.py line 127) on the surviving records: numpy argsort of the
Value-Score column with the default quicksort kind. -/
def rankedOrder (ms : List MetricsSnapshot) : Option (Array Nat) :=
  aquicksortIdx (Array.mk (ms.map valueScore))

/-- The ranked table: the surviving rows rearranged by `rankedOrder`. -/
def rankRows (ms : List MetricsSnapshot) : Option (List MetricsSnapshot) :=
  match rankedOrder ms with
  | some idx => some (idx.toList.filterMap fun i => ms.get? i)
  | Option.none => Option.none

/-- Terminal outcome of a run (src/app.py lines 118-147): either the
ranked table (displayed and offered as a CSV download), or the
"No stocks matched the criteria" warning with no table and no file. -/
inductive RunOutcome where
  | noMatches : RunOutcome
  | table (ranked : Option (List MetricsSnapshot)) : RunOutcome
  deriving DecidableEq

/-- The main branch after the scan: `if not df.empty: …score, sort,
display, csv… else: st.warning(...)`. -/
def runScreener (cfg : Config) (rs : List (Except PyErr ProviderInfo)) : RunOutcome :=
  let results := scanRun cfg rs
  if results.isEmpty then RunOutcome.noMatches
  else RunOutcome.table (rankRows results)

/-- The exported CSV rows: produced only on the table branch
(the download button exists only there). -/
def exportCSV : RunOutcome → Option (List MetricsSnapshot)
  | RunOutcome.noMatches => Option.none
  | RunOutcome.table r => r

/-!
Derived characterizations.  `pctFieldVal`, `upsideVal` and `fetchedOf`
are not translations of further source code: they are closed forms of
the expressions embedded above, proved equal to them below, so that
claims about individual fields of a fetched record can be stated and
used without re-running the `do`-chain of `fetchBody`.
-/

/-- Closed form of `pctField`: zero or absent ratios give `nan`, a
nonzero ratio is scaled by 100. -/
def pctFieldVal (v : PyVal) : PyVal :=
  match v with
  | .num q => if q = 0 then .nan else .num (q * 100)
  | _ => .nan

/-- Closed form of `upsideExpr`: the formula is evaluated only when both
prices are nonzero numbers; every other combination yields `nan`. -/
def upsideVal (target current : PyVal) : PyVal :=
  match target, current with
  | .num a, .num b => if a = 0 ∨ b = 0 then .nan else .num ((a - b) / b * 100)
  | _, _ => .nan

/-- Closed form of `fetchBody`. -/
def fetchedOf (info : ProviderInfo) : MetricsSnapshot :=
  { trailingPE := info.trailingPE
    forwardPE := info.forwardPE
    pegRatio := info.pegRatio
    roePct := pctFieldVal info.returnOnEquity
    debtEquity := info.debtToEquity
    earningsGrowthPct := pctFieldVal info.earningsGrowth
    revenueGrowthPct := pctFieldVal info.revenueGrowth
    recScore := info.recommendationMean
    upsidePct := upsideVal info.targetMeanPrice info.currentPrice }

lemma pctField_eq (v : PyVal) : pctField v = Except.ok (pctFieldVal v) := by
  cases v with
  | none => rfl
  | nan => rfl
  | num q =>
      by_cases hq : q = 0
      · subst hq; rfl
      · simp [pctField, pctFieldVal, pytruthy, pyMul, hq]

lemma exceptBind_ok (a : PyVal) (f : PyVal → Except PyErr PyVal) :
    (do let x ← Except.ok a; f x : Except PyErr PyVal) = f a := rfl

lemma upsideExpr_eq (target current : PyVal) :
    upsideExpr target current = Except.ok (upsideVal target current) := by
  cases target with
  | none => cases current <;> rfl
  | nan =>
      cases current with
      | none => rfl
      | nan => rfl
      | num b =>
          by_cases hb : b = 0
          · subst hb; rfl
          · simp [upsideExpr, upsideVal, pytruthy, pySub, pyDiv, pyMul,
              exceptBind_ok, hb]
  | num a =>
      cases current with
      | none => simp [upsideExpr, upsideVal, pytruthy]
      | nan =>
          by_cases ha : a = 0
          · subst ha; simp [upsideExpr, upsideVal, pytruthy]
          · simp [upsideExpr, upsideVal, pytruthy, pySub, pyDiv, pyMul,
              exceptBind_ok, ha]
      | num b =>
          by_cases ha : a = 0
          · subst ha; simp [upsideExpr, upsideVal, pytruthy]
          · by_cases hb : b = 0
            · subst hb; simp [upsideExpr, upsideVal, pytruthy, ha]
            · simp [upsideExpr, upsideVal, pytruthy, pySub, pyDiv, pyMul,
                exceptBind_ok, ha, hb]

lemma fetchBody_eq (info : ProviderInfo) :
    fetchBody info = Except.ok (fetchedOf info) := by
  simp only [fetchBody]
  rw [pctField_eq, pctField_eq, pctField_eq, upsideExpr_eq]
  rfl

lemma fillna_num (q d : ℚ) : fillna (PyVal.num q) d = q := rfl

lemma fillna_absent (v : PyVal) (d : ℚ) (h : pyAbsent v) : fillna v d = d := by
  rcases h with h | h <;> subst h <;> rfl

lemma truthyLt_absent (v : PyVal) (t : ℚ) (h : pyAbsent v) :
    (pytruthy v && pyltB v t) = false := by
  rcases h with h | h <;> subst h <;> rfl

lemma truthyGt_absent (v : PyVal) (t : ℚ) (h : pyAbsent v) :
    (pytruthy v && pygtB v t) = false := by
  rcases h with h | h <;> subst h <;> rfl

lemma truthyLt_iff (v : PyVal) (t : ℚ) :
    (pytruthy v && pyltB v t) = true ↔ ∃ q : ℚ, v = PyVal.num q ∧ q ≠ 0 ∧ q < t := by
  cases v <;> simp [pytruthy, pyltB]

/-! Concrete inputs used by counterexamples and witnesses. -/

/-- The sidebar default thresholds (src/app.py lines 23-27):
`max_pe = 18`, `max_forward_pe = 15`, `max_peg = 1.2`, `min_roe = 8`,
`min_upside = 15`. -/
def defaultConfig : Config := ⟨18, 15, 6/5, 8, 15⟩

/-- A record passing the default screen (P/E 10 < 18, earnings growth
10 > 8, ROE 15 > 8, D/E 50 < 150, rec 2 < 2.8), with Value Score
`1*0.4 + 10*0.3 - 20*0.3 = -13/5`. -/
def tieRecord : MetricsSnapshot :=
  ⟨PyVal.num 10, PyVal.none, PyVal.num 1, PyVal.num 15, PyVal.num 50,
   PyVal.num 10, PyVal.nan, PyVal.num 2, PyVal.num 20⟩

/-- The default thresholds with `min_roe` lowered to `-1`. -/
def cfgNegRoe : Config := ⟨18, 15, 6/5, -1, 15⟩

/-- A snapshot whose ROE% is present and exactly 0 while the other two
quality fields comfortably pass their fixed thresholds. -/
def mZeroRoe : MetricsSnapshot :=
  ⟨PyVal.num 10, PyVal.none, PyVal.none, PyVal.num 0, PyVal.num 50,
   PyVal.num 10, PyVal.none, PyVal.num 2, PyVal.none⟩

/-- A snapshot whose trailing P/E is present and exactly 0, the other
two valuation fields absent. -/
def mZeroPE : MetricsSnapshot :=
  ⟨PyVal.num 0, PyVal.none, PyVal.none, PyVal.none, PyVal.none,
   PyVal.none, PyVal.none, PyVal.none, PyVal.none⟩

/-- The all-absent snapshot (every provider key missing). -/
def mAllNone : MetricsSnapshot :=
  ⟨PyVal.none, PyVal.none, PyVal.none, PyVal.none, PyVal.none,
   PyVal.none, PyVal.none, PyVal.none, PyVal.none⟩

/-- Provider bag with a present-but-zero mean target price and a normal
current price. -/
def infoC5 : ProviderInfo :=
  ⟨PyVal.none, PyVal.none, PyVal.none, PyVal.none, PyVal.none,
   PyVal.none, PyVal.none, PyVal.none, PyVal.num 0, PyVal.num 10⟩

/-- Provider bag with target price 50 and current price 10. -/
def infoW5 : ProviderInfo :=
  ⟨PyVal.none, PyVal.none, PyVal.none, PyVal.none, PyVal.none,
   PyVal.none, PyVal.none, PyVal.none, PyVal.num 50, PyVal.num 10⟩

/-- Provider bag with ROE ratio exactly 0 and earnings-growth ratio
`3/25 = 0.12`. -/
def infoW10 : ProviderInfo :=
  ⟨PyVal.none, PyVal.none, PyVal.none, PyVal.num 0, PyVal.none,
   PyVal.num (3/25), PyVal.none, PyVal.none, PyVal.none, PyVal.none⟩

/-- C2 counterexample: with `min_roe = -1` and ROE% present and exactly
0 (all other quality fields passing), the claim expects the ROE clause
— and hence `quality` — to be true (`0 > -1`), but the truthiness guard
conflates the zero with absence and `quality` is false. -/
theorem c2_quality_zero_roe_cex :
    mZeroRoe.roePct = PyVal.num 0 ∧ cfgNegRoe.min_roe = -1 ∧
    ((0:ℚ) > cfgNegRoe.min_roe) ∧
    (mZeroRoe.debtEquity = PyVal.num 50 ∧ mZeroRoe.recScore = PyVal.num 2) ∧
    quality cfgNegRoe mZeroRoe = false := by
  refine ⟨rfl, rfl, by norm_num [cfgNegRoe], ⟨rfl, rfl⟩, by decide⟩

/-- C2 (amended): a present-but-zero ROE% is conflated with absence by
the truthy check, so the `quality` predicate is false whenever
`ROE% = 0`, for every threshold configuration — in particular for
`min_roe = 8` and for `min_roe = -1` alike. -/
theorem c2_quality_zero_roe_conflated (cfg : Config) (m : MetricsSnapshot)
    (h : m.roePct = PyVal.num 0) : quality cfg m = false := by
  simp [quality, h, pytruthy]

/-- Witness for `c2_quality_zero_roe_conflated` at a concrete record. -/
theorem c2_quality_zero_roe_conflated_witness :
    quality cfgNegRoe mZeroRoe = false :=
  c2_quality_zero_roe_conflated cfgNegRoe mZeroRoe rfl

/-- C3 counterexample: trailing P/E present and below `max_pe = 18`
(value 0), forward P/E and PEG absent — the claimed disjunction is
satisfied, yet `undervalued` is false because the truthiness guard
drops the zero. -/
theorem c3_undervalued_zero_pe_cex :
    (∃ q : ℚ, mZeroPE.trailingPE = PyVal.num q ∧ q < defaultConfig.max_pe) ∧
    mZeroPE.forwardPE = PyVal.none ∧ mZeroPE.pegRatio = PyVal.none ∧
    undervalued defaultConfig mZeroPE = false :=
  ⟨⟨0, rfl, by norm_num [defaultConfig]⟩, rfl, rfl, by decide⟩

/-- C3 (amended): `undervalued` is true iff one of the three valuation
fields holds a nonzero number strictly below its threshold (a present
zero is conflated with absence; `nan` fails every comparison).  With
trailing P/E = 10 and `max_pe = 18` it is true regardless of the other
fields, and with all three fields absent it is false. -/
theorem c3_undervalued_characterization :
    (∀ (cfg : Config) (m : MetricsSnapshot),
        undervalued cfg m = true ↔
          (∃ q : ℚ, m.trailingPE = PyVal.num q ∧ q ≠ 0 ∧ q < cfg.max_pe) ∨
          (∃ q : ℚ, m.forwardPE = PyVal.num q ∧ q ≠ 0 ∧ q < cfg.max_forward_pe) ∨
          (∃ q : ℚ, m.pegRatio = PyVal.num q ∧ q ≠ 0 ∧ q < cfg.max_peg)) ∧
    (∀ (cfg : Config) (m : MetricsSnapshot),
        m.trailingPE = PyVal.num 10 → cfg.max_pe = 18 →
        undervalued cfg m = true) ∧
    (∀ (cfg : Config) (m : MetricsSnapshot),
        pyAbsent m.trailingPE → pyAbsent m.forwardPE → pyAbsent m.pegRatio →
        undervalued cfg m = false) := by
  refine ⟨fun cfg m => ?_, fun cfg m h hpe => ?_, fun cfg m h1 h2 h3 => ?_⟩
  · simp only [undervalued, Bool.or_eq_true, truthyLt_iff, or_assoc]
  · have hcl : (pytruthy m.trailingPE && pyltB m.trailingPE cfg.max_pe) = true := by
      rw [h, hpe]; decide
    simp [undervalued, hcl]
  · simp [undervalued, truthyLt_absent _ _ h1, truthyLt_absent _ _ h2,
      truthyLt_absent _ _ h3]

/-- Witness for `c3_undervalued_characterization` at concrete inputs. -/
theorem c3_undervalued_characterization_witness :
    undervalued defaultConfig tieRecord = true ∧
    undervalued defaultConfig mAllNone = false :=
  ⟨(c3_undervalued_characterization.1 defaultConfig tieRecord).mpr
      (Or.inl ⟨10, rfl, by norm_num, by norm_num [defaultConfig]⟩),
   c3_undervalued_characterization.2.2 defaultConfig mAllNone
      (Or.inl rfl) (Or.inl rfl) (Or.inl rfl)⟩

/-- C4: the Value Score is `peg*0.4 + pe*0.3 - upside*0.3` with absent
PEG or trailing P/E replaced by the sentinel 999 and absent upside by 0;
with both PEG and trailing P/E absent it is
`999*0.4 + 999*0.3 - upside*0.3`. -/
theorem c4_valueScore_formula :
    (∀ (m : MetricsSnapshot) (p t u : ℚ),
        (m.pegRatio = PyVal.num p ∨ (pyAbsent m.pegRatio ∧ p = 999)) →
        (m.trailingPE = PyVal.num t ∨ (pyAbsent m.trailingPE ∧ t = 999)) →
        (m.upsidePct = PyVal.num u ∨ (pyAbsent m.upsidePct ∧ u = 0)) →
        valueScore m = p * (4/10) + t * (3/10) - u * (3/10)) ∧
    (∀ (m : MetricsSnapshot) (u : ℚ),
        pyAbsent m.pegRatio → pyAbsent m.trailingPE →
        m.upsidePct = PyVal.num u →
        valueScore m = 999 * (4/10) + 999 * (3/10) - u * (3/10)) := by
  constructor
  · rintro m p t u hp ht hu
    have Hp : fillna m.pegRatio 999 = p := by
      rcases hp with h | ⟨h, rfl⟩
      · rw [h]; rfl
      · exact fillna_absent _ _ h
    have Ht : fillna m.trailingPE 999 = t := by
      rcases ht with h | ⟨h, rfl⟩
      · rw [h]; rfl
      · exact fillna_absent _ _ h
    have Hu : fillna m.upsidePct 0 = u := by
      rcases hu with h | ⟨h, rfl⟩
      · rw [h]; rfl
      · exact fillna_absent _ _ h
    simp only [valueScore, Hp, Ht, Hu]
  · rintro m u h1 h2 h3
    simp only [valueScore, fillna_absent _ _ h1, fillna_absent _ _ h2, h3,
      fillna_num]

/-- Witness for `c4_valueScore_formula` at a concrete record. -/
theorem c4_valueScore_formula_witness :
    valueScore tieRecord = 1 * (4/10) + 10 * (3/10) - 20 * (3/10) :=
  c4_valueScore_formula.1 tieRecord 1 10 20 (Or.inl rfl) (Or.inl rfl)
    (Or.inl rfl)

lemma upsideVal_degenerate (target current : PyVal)
    (h : target = PyVal.none ∨ target = PyVal.num 0 ∨
         current = PyVal.none ∨ current = PyVal.num 0) :
    upsideVal target current = PyVal.nan := by
  rcases h with rfl | rfl | rfl | rfl
  · rfl
  · cases current <;> simp [upsideVal]
  · cases target <;> rfl
  · cases target <;> simp [upsideVal]

/-- C5 counterexample: target price present and exactly 0, current price
10 — both prices are present, the claim expects
`(0 − 10)/10 × 100 = −100`, but the truthiness guard yields `nan`
(absent). -/
theorem c5_upside_zero_price_cex :
    infoC5.targetMeanPrice = PyVal.num 0 ∧ infoC5.currentPrice = PyVal.num 10 ∧
    fetchBody infoC5 = Except.ok (fetchedOf infoC5) ∧
    (fetchedOf infoC5).upsidePct = PyVal.nan ∧
    PyVal.nan ≠ PyVal.num (((0:ℚ) - 10) / 10 * 100) :=
  ⟨rfl, rfl, fetchBody_eq infoC5, by decide, by decide⟩

/-- C5 (amended): the upside percent equals
`(target − current)/current × 100` whenever both prices are present
*and nonzero* (the truthy guard), and is `nan` (absent) when either
price is missing *or exactly zero*. -/
theorem c5_upside_truthy_formula :
    (∀ (info : ProviderInfo) (m : MetricsSnapshot) (t c : ℚ),
        fetchBody info = Except.ok m →
        info.targetMeanPrice = PyVal.num t → info.currentPrice = PyVal.num c →
        t ≠ 0 → c ≠ 0 →
        m.upsidePct = PyVal.num ((t - c) / c * 100)) ∧
    (∀ (info : ProviderInfo) (m : MetricsSnapshot),
        fetchBody info = Except.ok m →
        (info.targetMeanPrice = PyVal.none ∨ info.targetMeanPrice = PyVal.num 0 ∨
         info.currentPrice = PyVal.none ∨ info.currentPrice = PyVal.num 0) →
        m.upsidePct = PyVal.nan) := by
  constructor
  · intro info m t c hb htp hcp ht hc
    rw [fetchBody_eq] at hb
    injection hb with hb
    subst hb
    simp only [fetchedOf]
    rw [htp, hcp]
    simp [upsideVal, ht, hc]
  · intro info m hb h
    rw [fetchBody_eq] at hb
    injection hb with hb
    subst hb
    simp only [fetchedOf]
    exact upsideVal_degenerate _ _ h

/-- Witness for `c5_upside_truthy_formula` at target 50, current 10. -/
theorem c5_upside_truthy_formula_witness :
    (fetchedOf infoW5).upsidePct = PyVal.num (((50:ℚ) - 10) / 10 * 100) :=
  c5_upside_truthy_formula.1 infoW5 (fetchedOf infoW5) 50 10
    (fetchBody_eq infoW5) rfl rfl (by norm_num) (by norm_num)

/-- C6: `passes` is false — for every threshold configuration — on any
snapshot whose nine screened fields are all absent (`None` or `nan`). -/
theorem c6_passes_all_absent (cfg : Config) (m : MetricsSnapshot)
    (h1 : pyAbsent m.trailingPE) (h2 : pyAbsent m.forwardPE)
    (h3 : pyAbsent m.pegRatio) (h4 : pyAbsent m.earningsGrowthPct)
    (h5 : pyAbsent m.revenueGrowthPct) (h6 : pyAbsent m.upsidePct)
    (h7 : pyAbsent m.roePct) (h8 : pyAbsent m.debtEquity)
    (h9 : pyAbsent m.recScore) :
    passes cfg m = false := by
  have hu : undervalued cfg m = false := by
    simp [undervalued, truthyLt_absent _ _ h1, truthyLt_absent _ _ h2,
      truthyLt_absent _ _ h3]
  have hg : growth cfg m = false := by
    simp [growth, truthyGt_absent _ _ h4, truthyGt_absent _ _ h5,
      truthyGt_absent _ _ h6]
  have hq : quality cfg m = false := by
    simp [quality, truthyGt_absent _ _ h7, truthyLt_absent _ _ h8,
      truthyLt_absent _ _ h9]
  simp [passes, hu, hg, hq]

/-- Witness for `c6_passes_all_absent` on the all-`None` snapshot. -/
theorem c6_passes_all_absent_witness : passes defaultConfig mAllNone = false :=
  c6_passes_all_absent defaultConfig mAllNone (Or.inl rfl) (Or.inl rfl)
    (Or.inl rfl) (Or.inl rfl) (Or.inl rfl) (Or.inl rfl) (Or.inl rfl)
    (Or.inl rfl) (Or.inl rfl)

/-- C7: a failing provider call makes `fetch_stock_metrics` return
`None` rather than raising, and the scan over the universe produces the
same survivors with the failing symbol as without it: no per-symbol
failure aborts the run or loses already-collected results. -/
theorem c7_fetch_failure_isolated :
    (∀ e : PyErr, fetch_stock_metrics (Except.error e) = Option.none) ∧
    (∀ (cfg : Config) (pre post : List (Except PyErr ProviderInfo)) (e : PyErr),
        scanRun cfg (pre ++ Except.error e :: post) = scanRun cfg (pre ++ post)) := by
  refine ⟨fun e => rfl, fun cfg pre post e => ?_⟩
  simp [scanRun, collectSurvivors, fetch_stock_metrics]

/-- C8: when zero records pass screening the run ends in the distinct
`noMatches` outcome — and only then — and that outcome carries no table
and produces no export file. -/
theorem c8_no_matches_outcome (cfg : Config)
    (rs : List (Except PyErr ProviderInfo)) :
    (runScreener cfg rs = RunOutcome.noMatches ↔ scanRun cfg rs = []) ∧
    (scanRun cfg rs = [] → exportCSV (runScreener cfg rs) = Option.none) := by
  unfold runScreener
  rcases h : scanRun cfg rs with _ | ⟨a, l⟩ <;> simp [exportCSV]

/-- Witness for `c8_no_matches_outcome` on the empty universe. -/
theorem c8_no_matches_outcome_witness :
    runScreener defaultConfig [] = RunOutcome.noMatches ∧
    exportCSV (runScreener defaultConfig []) = Option.none :=
  ⟨((c8_no_matches_outcome defaultConfig []).1).mpr rfl,
   (c8_no_matches_outcome defaultConfig []).2 rfl⟩

/-- C9: the upside-percent expression never raises: it evaluates to a
value for every pair of provider prices, and a current price that is
exactly 0 or absent short-circuits to `nan` before the division —
although dividing by a numeric zero in the model is an error
(`pyDiv _ (num 0) = ZeroDivisionError`). -/
theorem c9_upside_division_safe :
    (∀ target current : PyVal, ∃ v : PyVal,
        upsideExpr target current = Except.ok v) ∧
    (∀ target : PyVal, upsideExpr target (PyVal.num 0) = Except.ok PyVal.nan) ∧
    (∀ target : PyVal, upsideExpr target PyVal.none = Except.ok PyVal.nan) ∧
    (∀ a : ℚ, pyDiv (PyVal.num a) (PyVal.num 0) = Except.error PyErr.zeroDiv) := by
  refine ⟨fun t c => ⟨upsideVal t c, upsideExpr_eq t c⟩, fun t => ?_,
    fun t => ?_, fun a => ?_⟩
  · rw [upsideExpr_eq]; cases t <;> simp [upsideVal]
  · rw [upsideExpr_eq]; cases t <;> rfl
  · simp [pyDiv]

/-- C10: a ratio field (ROE, earnings growth, revenue growth) that is
exactly 0 in the provider payload is recorded as `nan` (absent), while
a nonzero ratio is recorded multiplied by 100. -/
theorem c10_zero_ratio_recorded_nan (info : ProviderInfo)
    (m : MetricsSnapshot) (hb : fetchBody info = Except.ok m) :
    (info.returnOnEquity = PyVal.num 0 → m.roePct = PyVal.nan) ∧
    (∀ q : ℚ, q ≠ 0 → info.returnOnEquity = PyVal.num q →
        m.roePct = PyVal.num (q * 100)) ∧
    (info.earningsGrowth = PyVal.num 0 → m.earningsGrowthPct = PyVal.nan) ∧
    (∀ q : ℚ, q ≠ 0 → info.earningsGrowth = PyVal.num q →
        m.earningsGrowthPct = PyVal.num (q * 100)) ∧
    (info.revenueGrowth = PyVal.num 0 → m.revenueGrowthPct = PyVal.nan) ∧
    (∀ q : ℚ, q ≠ 0 → info.revenueGrowth = PyVal.num q →
        m.revenueGrowthPct = PyVal.num (q * 100)) := by
  rw [fetchBody_eq] at hb
  injection hb with hb
  subst hb
  refine ⟨fun h => ?_, fun q hq h => ?_, fun h => ?_, fun q hq h => ?_,
    fun h => ?_, fun q hq h => ?_⟩
  · simp [fetchedOf, pctFieldVal, h]
  · simp [fetchedOf, pctFieldVal, h, hq]
  · simp [fetchedOf, pctFieldVal, h]
  · simp [fetchedOf, pctFieldVal, h, hq]
  · simp [fetchedOf, pctFieldVal, h]
  · simp [fetchedOf, pctFieldVal, h, hq]

/-- Witness for `c10_zero_ratio_recorded_nan`: ROE ratio exactly 0 is
recorded absent; earnings-growth ratio 0.12 is recorded as 12. -/
theorem c10_zero_ratio_recorded_nan_witness :
    (fetchedOf infoW10).roePct = PyVal.nan ∧
    (fetchedOf infoW10).earningsGrowthPct = PyVal.num ((3/25) * 100) :=
  ⟨(c10_zero_ratio_recorded_nan infoW10 (fetchedOf infoW10)
      (fetchBody_eq infoW10)).1 rfl,
   (c10_zero_ratio_recorded_nan infoW10 (fetchedOf infoW10)
      (fetchBody_eq infoW10)).2.2.2.1 (3/25) (by norm_num) rfl⟩

attribute [local semireducible] Rat.mul Rat.add Rat.sub Rat.inv

set_option maxRecDepth 8000 in
/-- C1 (code bug evidence): seventeen identical surviving records — all
with the same Value Score — are permuted by
`df.sort_values("Value Score")`: with the pandas default
`kind='quicksort'` the argsort of the tied score column is
`[0, 14, 13, 12, 11, 10, 9, 15, 8, 6, 5, 4, 3, 2, 1, 7, 16]`, not the
enumeration order `[0, …, 16]` a stable sort would give (17 is the
smallest length at which the introsort leaves its stable
insertion-sort regime). -/
theorem c1_sort_quicksort_reorders_ties :
    passes defaultConfig tieRecord = true ∧
    (List.replicate 17 tieRecord).map valueScore =
      List.replicate 17 ((-13)/5 : ℚ) ∧
    rankedOrder (List.replicate 17 tieRecord) =
      some #[0, 14, 13, 12, 11, 10, 9, 15, 8, 6, 5, 4, 3, 2, 1, 7, 16] ∧
    rankedOrder (List.replicate 17 tieRecord) ≠ some (Array.range 17) := by
  refine ⟨by decide, by decide, by decide, by decide⟩
